import Mathlib

/-!
Verification of the PiClaw setup wizard (`setup-wizard/app.py`).

The wizard is a small Flask application.  We embed its handlers shallowly:

* **JSON values** (`JVal`) model Python's `json.load`/`json.dump` data.
  Objects are association lists in insertion order; assignment to an
  existing key replaces the value in place and assignment to a fresh key
  appends at the end, exactly like a CPython `dict`.
* **Filesystem and process state** relevant to the claims is an explicit
  `WizardState` record (config file content and mode, marker files, the
  `app.config["device_name"]` slot).
* **External effects** (the provider's HTTPS answer, `subprocess.run`
  outcomes, `json.loads` on a scan line) are parameters of the handler
  functions: the handler's branching on those outcomes is translated
  from the source.
* Python string operations used by the handlers (`str.strip`,
  `str.split`, substring tests, `str.upper`) are re-implemented by
  structural recursion over character lists so that concrete runs reduce
  inside the kernel.
-/

/-! ## Python string primitives -/

/-- Python's whitespace set used by `str.strip()` / `str.split()`:
space, tab, newline, carriage return, vertical tab, form feed. -/
def isPyWs (c : Char) : Bool :=
  c == ' ' || c == '\t' || c == '\n' || c == '\r' || c == '\x0b' || c == '\x0c'

/-- Python `s.strip()`: drop leading and trailing whitespace. -/
def pyStrip (s : String) : String :=
  ⟨((s.data.dropWhile isPyWs).reverse.dropWhile isPyWs).reverse⟩

/-- Auxiliary for splitting on a single delimiter character. -/
def splitOnCharAux (delim : Char) : List Char → List Char → List String
  | [], acc => [⟨acc.reverse⟩]
  | c :: rest, acc =>
    if c = delim then ⟨acc.reverse⟩ :: splitOnCharAux delim rest []
    else splitOnCharAux delim rest (c :: acc)

/-- Python `s.split(d)` for a one-character separator `d`
(e.g. `stdout.split("\n")`, `token.split("/")`). -/
def splitOnChar (delim : Char) (s : String) : List String :=
  splitOnCharAux delim s.data []

/-- Python `s.split()` (no argument): split on whitespace runs,
discarding empty pieces. -/
def pySplitWs (s : String) : List String :=
  ((s.data.splitOnP isPyWs).map (fun l => (⟨l⟩ : String))).filter (fun t => t ≠ "")

/-- Boolean test for `needle` being a contiguous sublist of `hay`. -/
def charListContains : List Char → List Char → Bool
  | _, [] => true
  | [], _ :: _ => false
  | c :: cs, needle => needle.isPrefixOf (c :: cs) || charListContains cs needle

/-- Python `needle in hay` on strings: contiguous-substring test. -/
def strContainsSub (hay needle : String) : Bool :=
  charListContains hay.data needle.data

/-- Python `s.upper()` (ASCII uppercasing, which is all the wizard needs:
it is applied to two-letter country codes). -/
def pyUpper (s : String) : String :=
  ⟨s.data.map Char.toUpper⟩

/-! ## JSON values (the shape produced by `json.load` / `json.loads`) -/

/-- A JSON value.  Objects are association lists in insertion order,
matching CPython `dict` iteration order. -/
inductive JVal where
  | jnull
  | jbool (b : Bool)
  | jnum (q : Rat)
  | jstr (s : String)
  | jarr (elems : List JVal)
  | jobj (fields : List (String × JVal))

/-- Python `d.get(k)` / `d[k]` read on a `dict` realized as an
association list. -/
def dictGet {α : Type} (l : List (String × α)) (k : String) : Option α :=
  match l with
  | [] => none
  | (k', v) :: rest => if k' = k then some v else dictGet rest k

/-- Python `d[k] = v` on a `dict`: replace in place if the key exists,
append at the end otherwise. -/
def dictSet {α : Type} (l : List (String × α)) (k : String) (v : α) :
    List (String × α) :=
  match l with
  | [] => [(k, v)]
  | (k', v') :: rest => if k' = k then (k, v) :: rest else (k', v') :: dictSet rest k v

/-- View a JSON value as an object's field list; `none` models the
`TypeError`/`AttributeError` Python raises when indexing a non-dict. -/
def JVal.asObj : JVal → Option (List (String × JVal))
  | .jobj fields => some fields
  | _ => none

/-- Follow a path of object keys through a JSON value. -/
def jPath (v : JVal) (ks : List String) : Option JVal :=
  match ks with
  | [] => some v
  | k :: rest =>
    match v with
    | .jobj fields =>
      match dictGet fields k with
      | some w => jPath w rest
      | none => none
    | _ => none

theorem dictGet_dictSet_self {α : Type} (l : List (String × α)) (k : String) (v : α) :
    dictGet (dictSet l k v) k = some v := by
  induction l with
  | nil => simp [dictGet, dictSet]
  | cons hd tl ih =>
    obtain ⟨k', v'⟩ := hd
    by_cases h : k' = k
    · simp [dictGet, dictSet, h]
    · simp [dictGet, dictSet, h, ih]

theorem dictGet_dictSet_ne {α : Type} (l : List (String × α)) (k k' : String) (v : α)
    (h : k' ≠ k) : dictGet (dictSet l k v) k' = dictGet l k' := by
  have h' : ¬(k = k') := fun e => h e.symm
  induction l with
  | nil => simp [dictGet, dictSet, h']
  | cons hd tl ih =>
    obtain ⟨k'', v''⟩ := hd
    by_cases h2 : k'' = k
    · subst h2
      simp [dictGet, dictSet, h']
    · simp [dictGet, dictSet, h2, ih]

theorem jPath_append (v : JVal) (ks ks' : List String) :
    jPath v (ks ++ ks') = (jPath v ks).bind (fun w => jPath w ks') := by
  induction ks generalizing v with
  | nil => simp [jPath]
  | cons k rest ih =>
    cases v with
    | jobj fields =>
      simp only [List.cons_append, jPath]
      cases dictGet fields k with
      | none => simp
      | some w => simpa using ih w
    | jnull => simp [jPath]
    | jbool b => simp [jPath]
    | jnum q => simp [jPath]
    | jstr s => simp [jPath]
    | jarr es => simp [jPath]

/-! ## Provider descriptors (`SUPPORTED_PROVIDERS`) -/

/-- One entry of the `SUPPORTED_PROVIDERS` dict in `app.py`. -/
structure ProviderInfo where
  name : String
  config_key : String
  default_model : String
  docs_url : String
  validate_url : String
  validate_header : Option String := none
  validate_extra_headers : List (String × String) := []
  validate_query : Option String := none

def anthropicProvider : ProviderInfo where
  name := "Anthropic (Claude)"
  config_key := "anthropic"
  default_model := "claude-sonnet-4-5"
  docs_url := "https://console.anthropic.com/settings/keys"
  validate_url := "https://api.anthropic.com/v1/messages"
  validate_header := some "x-api-key"
  validate_extra_headers := [("anthropic-version", "2023-06-01")]

def openaiProvider : ProviderInfo where
  name := "OpenAI (GPT)"
  config_key := "openai"
  default_model := "gpt-4o"
  docs_url := "https://platform.openai.com/api-keys"
  validate_url := "https://api.openai.com/v1/models"
  validate_header := some "Authorization"

def geminiProvider : ProviderInfo where
  name := "Google (Gemini)"
  config_key := "gemini"
  default_model := "gemini-2.5-flash"
  docs_url := "https://aistudio.google.com/apikey"
  validate_url := "https://generativelanguage.googleapis.com/v1beta/models"
  validate_query := some "key"

def groqProvider : ProviderInfo where
  name := "Groq"
  config_key := "groq"
  default_model := "llama-3.3-70b"
  docs_url := "https://console.groq.com/keys"
  validate_url := "https://api.groq.com/openai/v1/models"
  validate_header := some "Authorization"

/-- `SUPPORTED_PROVIDERS` as an insertion-ordered dict. -/
def SUPPORTED_PROVIDERS : List (String × ProviderInfo) :=
  [("anthropic", anthropicProvider), ("openai", openaiProvider),
   ("gemini", geminiProvider), ("groq", groqProvider)]

/-- `SUPPORTED_PROVIDERS.get(provider_key)`. -/
def lookupProvider (k : String) : Option ProviderInfo :=
  dictGet SUPPORTED_PROVIDERS k

theorem lookupProvider_config_key (p : String) (info : ProviderInfo)
    (h : lookupProvider p = some info) : info.config_key = p := by
  simp only [lookupProvider, SUPPORTED_PROVIDERS, dictGet] at h
  split at h
  · rename_i he; cases h; rw [← he]; rfl
  split at h
  · rename_i he; cases h; rw [← he]; rfl
  split at h
  · rename_i he; cases h; rw [← he]; rfl
  split at h
  · rename_i he; cases h; rw [← he]; rfl
  · cases h

theorem lookupProvider_ne_empty (p : String) (info : ProviderInfo)
    (h : lookupProvider p = some info) : p ≠ "" := by
  intro he
  subst he
  simp [lookupProvider, SUPPORTED_PROVIDERS, dictGet] at h

/-! ## `validate_api_key` -/

/-- Outcome of the outbound `urllib.request.urlopen` validation call.
`ok code` is a 2xx answer (`urlopen` returned), `httpError` an
`urllib.error.HTTPError` with the carried status code, `urlError` an
`urllib.error.URLError` (network-level failure), and `otherException`
any other raised exception, carrying its `str(e)` text. -/
inductive HTTPOutcome where
  | ok (code : Nat)
  | httpError (code : Nat)
  | urlError
  | otherException (msg : String)

/-- `validate_api_key(provider_key, api_key)`.  The request construction
never raises, so the classification depends only on the provider lookup
and the response `outcome`; the returned pair is
`(is_valid, error_message)` as in the source. -/
def validate_api_key (provider_key : String) (outcome : HTTPOutcome) :
    Bool × Option String :=
  match lookupProvider provider_key with
  | none => (false, some "Unknown provider")
  | some _ =>
    match outcome with
    | .ok _ => (true, none)
    | .httpError code =>
      if code = 401 then (false, some "Invalid API key. Please check and try again.")
      else if code = 403 then (false, some "API key doesn't have permission. Check your account.")
      else if code = 429 then (true, none)
      else (false, some ("Provider returned error " ++ toString code ++ ". Try again."))
    | .urlError => (false, some "Can't reach the provider. Check your internet connection.")
    | .otherException msg => (false, some ("Validation failed: " ++ msg))

/-! ## Root routing (`index`) and AP-mode detection (`_is_ap_mode`) -/

/-- `_is_ap_mode()`: `false` when the WiFi helper script is absent;
otherwise inspect `ip addr show wlan0` output for the AP gateway
address.  `ipQuery = none` models the subprocess raising (timeout or
failure), which the handler swallows into `false`. -/
def is_ap_mode (wifiScriptExists : Bool) (ipQuery : Option String) : Bool :=
  if !wifiScriptExists then false
  else
    match ipQuery with
    | none => false
    | some out => strContainsSub out "192.168.4.1"

/-- Target of the redirect issued by `GET /`. -/
inductive RootRoute where
  | dashboard
  | wifiSetup
  | step1

/-- `index()`: the `GET /` handler's routing decision, as a function of
the two marker files and the AP-mode probe inputs. -/
def indexRoute (setupComplete wifiConfigured wifiScriptExists : Bool)
    (ipQuery : Option String) : RootRoute :=
  if setupComplete then .dashboard
  else if !wifiConfigured && is_ap_mode wifiScriptExists ipQuery then .wifiSetup
  else .step1

/-! ## The persisted config (`setup_step3`'s read-modify-write) -/

/-- The dict assigned to `config["providers"][config_key]` in
`setup_step3`. -/
def providerEntry (api_key : String) : JVal :=
  .jobj [("api_key", .jstr api_key), ("api_base", .jstr "")]

/-- The from-scratch config template built when `CONFIG_FILE` does not
exist (lines 312-335 of `app.py`). -/
def defaultConfig (workspaceDir config_key default_model : String) : JVal :=
  .jobj
    [("agents", .jobj
       [("defaults", .jobj
          [("workspace", .jstr workspaceDir),
           ("restrict_to_workspace", .jbool true),
           ("provider", .jstr config_key),
           ("model", .jstr default_model),
           ("max_tokens", .jnum 8192),
           ("temperature", .jnum (7 / 10 : Rat)),
           ("max_tool_iterations", .jnum 20)])]),
     ("channels", .jobj
       [("telegram", .jobj
          [("enabled", .jbool false), ("token", .jstr ""), ("allow_from", .jarr [])])]),
     ("providers", .jobj []),
     ("gateway", .jobj [("host", .jstr "0.0.0.0"), ("port", .jnum 18790)]),
     ("tools", .jobj
       [("web", .jobj
          [("duckduckgo", .jobj [("enabled", .jbool true), ("max_results", .jnum 5)])])]),
     ("heartbeat", .jobj [("enabled", .jbool true), ("interval", .jnum 30)])]

/-- Lines 337-346 of `setup_step3`: set
`config["agents"]["defaults"]["provider"]` and `["model"]`, default
`config["providers"]` to `{}` when the key is absent, then assign
`config["providers"][config_key]`.  `none` models the
`KeyError`/`TypeError` Python raises on a config of the wrong shape;
the exception propagates before the file write, so the caller leaves
the filesystem untouched in that case. -/
def applyProviderUpdate (config : JVal) (config_key default_model api_key : String) :
    Option JVal :=
  match config with
  | .jobj cfgF =>
    match dictGet cfgF "agents" with
    | some (.jobj agentsF) =>
      match dictGet agentsF "defaults" with
      | some (.jobj defF) =>
        let defF2 := dictSet (dictSet defF "provider" (.jstr config_key)) "model"
          (.jstr default_model)
        let agentsF2 := dictSet agentsF "defaults" (.jobj defF2)
        let cfgF2 := dictSet cfgF "agents" (.jobj agentsF2)
        let cfgF3 : List (String × JVal) :=
          match dictGet cfgF2 "providers" with
          | none => dictSet cfgF2 "providers" (.jobj [])
          | some _ => cfgF2
        match dictGet cfgF3 "providers" with
        | some (.jobj provF) =>
          some (.jobj (dictSet cfgF3 "providers"
            (.jobj (dictSet provF config_key (providerEntry api_key)))))
        | some _ => none
        | none => none
      | _ => none
    | _ => none
  | _ => none

/-- Shape of a config on which `setup_step3`'s read-modify-write cannot
raise: a JSON object with `agents.defaults` an object and `providers`
(if present) an object. -/
def configWF (c : JVal) : Bool :=
  match c with
  | .jobj cfgF =>
    (match dictGet cfgF "agents" with
     | some (.jobj agentsF) =>
       (match dictGet agentsF "defaults" with
        | some (.jobj _) => true
        | _ => false)
     | _ => false)
    && (match dictGet cfgF "providers" with
        | none => true
        | some (.jobj _) => true
        | some _ => false)
  | _ => false

/-- Well-formedness of the on-disk state: the config file is absent or
holds a well-formed config. -/
def configWFOpt : Option JVal → Bool
  | none => true
  | some c => configWF c

/-! ## Wizard state and the step handlers -/

/-- The mutable state `setup_step2`/`setup_step3` touch: the persisted
config file (content and permission bits), the setup-complete marker,
and the `app.config["device_name"]` slot. -/
structure WizardState where
  configFile : Option JVal
  configMode : Option Nat
  setupComplete : Bool
  deviceName : Option String

/-- The HTTP response produced by `setup_step3`. -/
inductive Step3Response where
  | redirectStep2
  | step2Error (error : Option String) (selected_provider : String)
  | completePage (name : String) (provider : String) (model : String)
  | serverError

/-- `setup_step2` (POST branch): store the submitted device name in
`app.config["device_name"]`.  `request.form.get("device_name", "piclaw")`
returns the default only when the field is absent from the form. -/
def setup_step2_post (st : WizardState) (device_name_field : Option String) :
    WizardState :=
  { st with deviceName := some (device_name_field.getD "piclaw") }

/-- `setup_step3`: the `POST /setup/3` handler.  `provider` and
`apiKeyField` are `request.form.get("provider")` and
`request.form.get("api_key", "")` (`none` = field absent); `testing` is
`app.config["TESTING"]`; `outcome` is the provider's answer to the
validation request; `workspaceDir` is `str(WORKSPACE_DIR)`.  Returns
the new state and the response. -/
def setup_step3 (st : WizardState) (testing : Bool) (workspaceDir : String)
    (provider apiKeyField : Option String) (outcome : HTTPOutcome) :
    WizardState × Step3Response :=
  let providerStr := provider.getD ""
  let api_key := pyStrip (apiKeyField.getD "")
  let device_name := st.deviceName.getD "piclaw"
  if providerStr = "" ∨ api_key = "" then (st, .redirectStep2)
  else
    match lookupProvider providerStr with
    | none => (st, .redirectStep2)
    | some provider_info =>
      let validation := validate_api_key providerStr outcome
      if testing = false ∧ validation.1 = false then
        (st, .step2Error validation.2 providerStr)
      else
        let base := st.configFile.getD
          (defaultConfig workspaceDir provider_info.config_key provider_info.default_model)
        match applyProviderUpdate base provider_info.config_key
            provider_info.default_model api_key with
        | none => (st, .serverError)
        | some cfg =>
          ({ st with
              configFile := some cfg
              configMode := some 0o600
              setupComplete := true },
           .completePage device_name provider_info.name provider_info.default_model)

/-! ## WiFi scan (`api_wifi_scan`) -/

/-- Outcome of the `subprocess.run([... "scan"], timeout=15)` call. -/
inductive ScanOutcome where
  | completed (stdout : String)
  | timedOut

/-- The error channel of the scan response.  Only the first two carry a
string literal from the source; `runtimeExc` is the
`except Exception as e` branch reached when a parsed line is not an
object with a string `ssid`, whose message is the runtime-generated
`str(e)`. -/
inductive ScanError where
  | notAvailable
  | timedOut
  | runtimeExc (offending : JVal)

/-- The literal message the source puts in the `error` field, where it
is a source literal. -/
def ScanError.literalMessage : ScanError → Option String
  | .notAvailable => some "WiFi setup not available on this device."
  | .timedOut => some "WiFi scan timed out. Try again."
  | .runtimeExc _ => none

/-- The JSON body of the scan response: the collected `networks` list
and the optional `error` field. -/
structure ScanResp where
  networks : List JVal
  error : Option ScanError

/-- `net.get("ssid", "").strip()`: `none` models the `AttributeError`
(or `.get` on a non-dict) that escapes the per-line `try` and aborts
the whole scan. -/
def getSsid (net : JVal) : Option String :=
  match net with
  | .jobj fields =>
    match dictGet fields "ssid" with
    | none => some (pyStrip "")
    | some (.jstr s) => some (pyStrip s)
    | some _ => none
  | _ => none

/-- The ssid used for deduplication, defaulting to `""` (only used on
nets whose `getSsid` succeeded). -/
def ssidKey (net : JVal) : String := (getSsid net).getD ""

/-- The scan loop (lines 184-196): per non-blank line, `json.loads`
(modelled by the `parse` parameter, `none` = `json.JSONDecodeError`,
which the inner `except` skips), extract and strip the ssid, and keep
the network when its ssid is non-empty and unseen. -/
def scanCollect (parse : String → Option JVal) :
    List String → List String → Except JVal (List JVal)
  | [], _ => .ok []
  | line :: rest, seen =>
    if pyStrip line = "" then scanCollect parse rest seen
    else
      match parse line with
      | none => scanCollect parse rest seen
      | some net =>
        match getSsid net with
        | none => .error net
        | some ssid =>
          if ssid ≠ "" ∧ ssid ∉ seen then
            match scanCollect parse rest (ssid :: seen) with
            | .ok nets => .ok (net :: nets)
            | .error e => .error e
          else scanCollect parse rest seen

/-- The non-blank scan-output lines, each parsed; the pool the scan
draws its networks from. -/
def scanParsedNets (parse : String → Option JVal) (stdout : String) : List JVal :=
  (((splitOnChar '\n' (pyStrip stdout)).filter (fun l => pyStrip l ≠ "")).filterMap parse)

/-- `api_wifi_scan`: the `POST /api/wifi/scan` handler. -/
def api_wifi_scan (scriptExists : Bool) (parse : String → Option JVal)
    (outcome : ScanOutcome) : ScanResp :=
  if !scriptExists then ⟨[], some .notAvailable⟩
  else
    match outcome with
    | .timedOut => ⟨[], some .timedOut⟩
    | .completed stdout =>
      match scanCollect parse (splitOnChar '\n' (pyStrip stdout)) [] with
      | .ok nets => ⟨nets, none⟩
      | .error net => ⟨[], some (.runtimeExc net)⟩

/-! ## WiFi connect (`api_wifi_connect`) -/

/-- Outcome of the `subprocess.run([... "connect", ...], timeout=30)`
call; `excOther` is the `except Exception as e` branch with `str(e)`. -/
inductive ConnectOutcome where
  | completed (returncode : Int) (stdout : String)
  | timedOut
  | excOther (msg : String)

/-- The JSON body of the connect response. -/
structure ConnectResp where
  success : Bool
  error : Option String
  ip : Option String
  message : Option String

/-- Lines 227-238: extract the freshly assigned wlan0 address from
`ip addr show wlan0` output.  `ipQuery = none` models the subprocess
raising; an `IndexError` while parsing the first matching line is
swallowed by the same `except`, leaving `"unknown"`. -/
def extractNewIp (ipQuery : Option String) : String :=
  match ipQuery with
  | none => "unknown"
  | some out =>
    match (splitOnChar '\n' out).find?
        (fun l => strContainsSub l "inet " && !strContainsSub l "192.168.4.") with
    | none => "unknown"
    | some line =>
      match (pySplitWs (pyStrip line)).get? 1 with
      | none => "unknown"
      | some tok => (splitOnChar '/' tok).headD ""

/-- `api_wifi_connect`: the `POST /api/wifi/connect` handler.  The three
`Option String` arguments are the JSON body's `ssid`/`password`/
`country` fields (`none` = absent).  Besides the response it returns
whether the helper script's `connect` subcommand was invoked. -/
def api_wifi_connect (scriptExists : Bool) (ssidField passwordField countryField : Option String)
    (outcome : ConnectOutcome) (ipQuery : Option String) : ConnectResp × Bool :=
  let ssid := pyStrip (ssidField.getD "")
  let password := passwordField.getD ""
  let _country := pyUpper (pyStrip (countryField.getD "US"))
  if ssid = "" then (⟨false, some "SSID is required.", none, none⟩, false)
  else if password = "" then (⟨false, some "Password is required.", none, none⟩, false)
  else if !scriptExists then
    (⟨false, some "WiFi setup not available on this device.", none, none⟩, false)
  else
    match outcome with
    | .timedOut => (⟨false, some "Connection timed out. Try again.", none, none⟩, true)
    | .excOther msg => (⟨false, some msg, none, none⟩, true)
    | .completed returncode _ =>
      if returncode = 0 then
        let new_ip := extractNewIp ipQuery
        (⟨true, none, some new_ip,
          some ("Connected to " ++ ssid ++ "! Your PiClaw is now at http://" ++ new_ip ++ ":8080")⟩,
         true)
      else
        (⟨false, some "Could not connect. Check your password and try again.", none, none⟩, true)

/-! ## Claim theorems -/

/-- C4: For every recognized provider key, `validate_api_key` classifies
the provider's response as: a 2xx response yields `(True, None)`;
HTTP 401 yields the check-and-try-again message; HTTP 403 an
account-permission message; HTTP 429 yields `(True, None)`; any other
HTTP error code yields `False` with a message containing the code; a
network-level `URLError` yields `False` with a connection message; any
other exception yields `False` with a message containing the exception
text. -/
theorem validate_api_key_classification (p : String) (info : ProviderInfo)
    (code : Nat) (msg : String) (hp : lookupProvider p = some info) :
    (∀ c : Nat, validate_api_key p (.ok c) = (true, none))
    ∧ validate_api_key p (.httpError 401) =
        (false, some "Invalid API key. Please check and try again.")
    ∧ validate_api_key p (.httpError 403) =
        (false, some "API key doesn't have permission. Check your account.")
    ∧ validate_api_key p (.httpError 429) = (true, none)
    ∧ (code ≠ 401 → code ≠ 403 → code ≠ 429 →
        validate_api_key p (.httpError code) =
          (false, some ("Provider returned error " ++ toString code ++ ". Try again.")))
    ∧ validate_api_key p .urlError =
        (false, some "Can't reach the provider. Check your internet connection.")
    ∧ validate_api_key p (.otherException msg) =
        (false, some ("Validation failed: " ++ msg)) := by
  refine ⟨?_, ?_, ?_, ?_, ?_, ?_, ?_⟩
  · intro c; simp [validate_api_key, hp]
  · simp [validate_api_key, hp]
  · simp [validate_api_key, hp]
  · simp [validate_api_key, hp]
  · intro h1 h2 h3
    simp [validate_api_key, hp, h1, h2, h3]
  · simp [validate_api_key, hp]
  · simp [validate_api_key, hp]

/-- C4 witness: concrete classification runs for the `openai` provider. -/
theorem validate_api_key_classification_witness :
    lookupProvider "openai" = some openaiProvider
    ∧ validate_api_key "openai" (.httpError 401) =
        (false, some "Invalid API key. Please check and try again.")
    ∧ validate_api_key "openai" (.httpError 429) = (true, none)
    ∧ validate_api_key "openai" (.httpError 500) =
        (false, some "Provider returned error 500. Try again.") := by
  have h := validate_api_key_classification "openai" openaiProvider 500 "boom" rfl
  refine ⟨rfl, h.2.1, h.2.2.2.1, ?_⟩
  have h5 := h.2.2.2.2.1 (by decide) (by decide) (by decide)
  simpa using h5

/-- C5: `GET /` redirects to `/dashboard` iff the setup-complete marker
exists; otherwise to `/wifi` iff the WiFi-configured marker is absent
and AP mode is detected; otherwise to `/setup/1`. -/
theorem indexRoute_characterization (s w se : Bool) (q : Option String) :
    (indexRoute s w se q = .dashboard ↔ s = true)
    ∧ (indexRoute s w se q = .wifiSetup ↔
        (s = false ∧ w = false ∧ is_ap_mode se q = true))
    ∧ (indexRoute s w se q = .step1 ↔
        (s = false ∧ ¬(w = false ∧ is_ap_mode se q = true))) := by
  cases s <;> cases w <;> cases hm : is_ap_mode se q <;>
    simp [indexRoute, hm]

/-- C2: `POST /setup/3` with an unrecognized provider key or an empty
(after strip) API key leaves the whole state unchanged — in particular
the config file is neither created nor modified — and redirects back to
`/setup/2`. -/
theorem setup_step3_rejects_bad_input (st : WizardState) (testing : Bool) (ws : String)
    (provider apiKeyField : Option String) (outcome : HTTPOutcome)
    (h : lookupProvider (provider.getD "") = none ∨ pyStrip (apiKeyField.getD "") = "") :
    setup_step3 st testing ws provider apiKeyField outcome = (st, .redirectStep2) := by
  by_cases h1 : provider.getD "" = "" ∨ pyStrip (apiKeyField.getD "") = ""
  · simp only [setup_step3, if_pos h1]
  · push_neg at h1
    obtain ⟨hp, hk⟩ := h1
    rcases h with h | h
    · simp only [setup_step3, h]
      rw [if_neg]
      push_neg
      exact ⟨hp, hk⟩
    · exact absurd h hk

/-- C2 witness: a concrete unrecognized provider and a concrete
whitespace-only key are both redirected with the state untouched. -/
theorem setup_step3_rejects_bad_input_witness :
    (lookupProvider "mystery" = none
      ∧ setup_step3 ⟨none, none, false, none⟩ true "ws" (some "mystery") (some "k")
          .urlError = (⟨none, none, false, none⟩, .redirectStep2))
    ∧ (pyStrip "   " = ""
      ∧ setup_step3 ⟨none, none, false, none⟩ true "ws" (some "groq") (some "   ")
          .urlError = (⟨none, none, false, none⟩, .redirectStep2)) :=
  ⟨⟨rfl, setup_step3_rejects_bad_input _ true "ws" (some "mystery") (some "k") .urlError
      (Or.inl rfl)⟩,
   ⟨rfl, setup_step3_rejects_bad_input _ true "ws" (some "groq") (some "   ") .urlError
      (Or.inr rfl)⟩⟩

/-- C3: when testing is off and `validate_api_key` reports invalid,
`POST /setup/3` leaves the whole state unchanged — the setup-complete
marker stays absent and the config file is not written — and re-renders
the provider step with the returned error message and the originally
submitted provider as `selected_provider`. -/
theorem setup_step3_invalid_key_rerenders (st : WizardState) (ws p : String)
    (apiKeyField : Option String) (outcome : HTTPOutcome) (info : ProviderInfo)
    (msg : Option String)
    (hp : lookupProvider p = some info)
    (hk : pyStrip (apiKeyField.getD "") ≠ "")
    (hv : validate_api_key p outcome = (false, msg)) :
    setup_step3 st false ws (some p) apiKeyField outcome = (st, .step2Error msg p) := by
  have hpne : p ≠ "" := lookupProvider_ne_empty p info hp
  simp only [setup_step3, Option.getD_some]
  rw [if_neg (by push_neg; exact ⟨hpne, hk⟩), hp]
  simp [hv]

/-- C3 witness: a concrete 401-rejected submission re-renders step 2
with the invalid-key message and the submitted provider, leaving the
state unchanged. -/
theorem setup_step3_invalid_key_rerenders_witness :
    (lookupProvider "groq" = some groqProvider
      ∧ pyStrip "gsk-bad" ≠ ""
      ∧ validate_api_key "groq" (.httpError 401) =
          (false, some "Invalid API key. Please check and try again."))
    ∧ setup_step3 ⟨none, none, false, none⟩ false "ws" (some "groq") (some "gsk-bad")
        (.httpError 401) =
      (⟨none, none, false, none⟩,
       .step2Error (some "Invalid API key. Please check and try again.") "groq") := by
  refine ⟨⟨rfl, by decide, rfl⟩, ?_⟩
  exact setup_step3_invalid_key_rerenders ⟨none, none, false, none⟩ "ws" "groq"
    (some "gsk-bad") (.httpError 401) groqProvider
    (some "Invalid API key. Please check and try again.") rfl (by decide) rfl


theorem applyProviderUpdate_spec (c : JVal) (ck m k : String) (h : configWF c = true) :
    ∃ cfg, applyProviderUpdate c ck m k = some cfg
      ∧ jPath cfg ["agents", "defaults", "provider"] = some (.jstr ck)
      ∧ jPath cfg ["agents", "defaults", "model"] = some (.jstr m)
      ∧ jPath cfg ["providers", ck] = some (providerEntry k)
      ∧ configWF cfg = true
      ∧ (∀ k' e, k' ≠ ck → jPath c ["providers", k'] = some e →
          jPath cfg ["providers", k'] = some e) := by
  have hne_pa : ("providers" : String) ≠ "agents" := by decide
  have hne_ap : ("agents" : String) ≠ "providers" := by decide
  have hne_pm : ("provider" : String) ≠ "model" := by decide
  cases c with
  | jnull => simp [configWF] at h
  | jbool b => simp [configWF] at h
  | jnum q => simp [configWF] at h
  | jstr s => simp [configWF] at h
  | jarr es => simp [configWF] at h
  | jobj cfgF =>
    simp only [configWF, Bool.and_eq_true] at h
    obtain ⟨h1, h2⟩ := h
    rcases heqA : dictGet cfgF "agents" with _ | agentsV
    · simp [heqA] at h1
    rcases agentsV with _ | b | q | s | es | agentsF
    · simp [heqA] at h1
    · simp [heqA] at h1
    · simp [heqA] at h1
    · simp [heqA] at h1
    · simp [heqA] at h1
    simp only [heqA] at h1
    rcases heqD : dictGet agentsF "defaults" with _ | defV
    · simp [heqD] at h1
    rcases defV with _ | b | q | s | es | defF
    · simp [heqD] at h1
    · simp [heqD] at h1
    · simp [heqD] at h1
    · simp [heqD] at h1
    · simp [heqD] at h1
    have e1 : ∀ v : JVal, dictGet (dictSet cfgF "agents" v) "providers" =
        dictGet cfgF "providers" :=
      fun v => dictGet_dictSet_ne _ _ _ _ hne_pa
    rcases hP : dictGet cfgF "providers" with _ | pv
    · refine ⟨.jobj (dictSet
          (dictSet (dictSet cfgF "agents"
            (.jobj (dictSet agentsF "defaults"
              (.jobj (dictSet (dictSet defF "provider" (.jstr ck)) "model" (.jstr m))))))
            "providers" (.jobj []))
          "providers" (.jobj (dictSet [] ck (providerEntry k)))), ?_, ?_, ?_, ?_, ?_, ?_⟩
      · simp only [applyProviderUpdate, heqA, heqD, e1, hP, dictGet_dictSet_self]
      · simp only [jPath, dictGet_dictSet_self, dictGet_dictSet_ne _ _ _ _ hne_ap,
          dictGet_dictSet_ne _ _ _ _ hne_pm, e1]
      · simp only [jPath, dictGet_dictSet_self, dictGet_dictSet_ne _ _ _ _ hne_ap, e1]
      · simp only [jPath, dictGet_dictSet_self]
      · simp only [configWF, dictGet_dictSet_self, dictGet_dictSet_ne _ _ _ _ hne_ap,
          e1, Bool.and_self]
      · intro k' e _ hold
        simp only [jPath, hP] at hold
        exact Option.noConfusion hold
    · rcases pv with _ | b | q | s | es | provF
      · simp [hP] at h2
      · simp [hP] at h2
      · simp [hP] at h2
      · simp [hP] at h2
      · simp [hP] at h2
      · refine ⟨.jobj (dictSet
            (dictSet cfgF "agents"
              (.jobj (dictSet agentsF "defaults"
                (.jobj (dictSet (dictSet defF "provider" (.jstr ck)) "model" (.jstr m))))))
            "providers" (.jobj (dictSet provF ck (providerEntry k)))), ?_, ?_, ?_, ?_, ?_, ?_⟩
        · simp only [applyProviderUpdate, heqA, heqD, e1, hP]
        · simp only [jPath, dictGet_dictSet_self, dictGet_dictSet_ne _ _ _ _ hne_ap,
            dictGet_dictSet_ne _ _ _ _ hne_pm, e1]
        · simp only [jPath, dictGet_dictSet_self, dictGet_dictSet_ne _ _ _ _ hne_ap, e1]
        · simp only [jPath, dictGet_dictSet_self]
        · simp only [configWF, dictGet_dictSet_self, dictGet_dictSet_ne _ _ _ _ hne_ap,
            e1, heqA, heqD, Bool.and_self]
        · intro k' e hk' hold
          simp only [jPath, hP] at hold
          simp only [jPath, dictGet_dictSet_self, dictGet_dictSet_ne _ _ _ _ hk']
          exact hold

theorem configWF_default (ws ck m : String) : configWF (defaultConfig ws ck m) = true := rfl

theorem configWFOpt_base (o : Option JVal) (ws ck m : String) (h : configWFOpt o = true) :
    configWF (o.getD (defaultConfig ws ck m)) = true := by
  cases o with
  | none => exact configWF_default ws ck m
  | some c => exact h

/-- The success path of `setup_step3` as a single equation: recognized
provider, non-empty key, validation passed or bypassed, and the config
merge succeeded. -/
theorem setup_step3_commit (st : WizardState) (testing : Bool) (ws p : String)
    (apiKeyField : Option String) (outcome : HTTPOutcome) (info : ProviderInfo) (cfg : JVal)
    (hp : lookupProvider p = some info)
    (hk : pyStrip (apiKeyField.getD "") ≠ "")
    (hv : testing = true ∨ (validate_api_key p outcome).1 = true)
    (happ : applyProviderUpdate
        (st.configFile.getD (defaultConfig ws info.config_key info.default_model))
        info.config_key info.default_model (pyStrip (apiKeyField.getD "")) = some cfg) :
    setup_step3 st testing ws (some p) apiKeyField outcome =
      ({ st with configFile := some cfg, configMode := some 0o600, setupComplete := true },
       .completePage (st.deviceName.getD "piclaw") info.name info.default_model) := by
  have hpne : p ≠ "" := lookupProvider_ne_empty p info hp
  simp only [setup_step3, Option.getD_some]
  rw [if_neg (by push_neg; exact ⟨hpne, hk⟩)]
  simp only [hp]
  have hcond : ¬(testing = false ∧ (validate_api_key p outcome).1 = false) := by
    rcases hv with hv | hv <;> intro hc <;> obtain ⟨hc1, hc2⟩ := hc
    · rw [hv] at hc1
      exact Bool.noConfusion hc1
    · rw [hv] at hc2
      exact Bool.noConfusion hc2
  rw [if_neg hcond]
  simp only [happ]

/-- A successful `applyProviderUpdate` certifies the well-formedness of
the config it started from. -/
theorem applyProviderUpdate_some_wf (c : JVal) (ck m k : String) (cfg : JVal)
    (h : applyProviderUpdate c ck m k = some cfg) : configWF c = true := by
  cases c with
  | jnull => simp [applyProviderUpdate] at h
  | jbool b => simp [applyProviderUpdate] at h
  | jnum q => simp [applyProviderUpdate] at h
  | jstr s => simp [applyProviderUpdate] at h
  | jarr es => simp [applyProviderUpdate] at h
  | jobj cfgF =>
    have e1 : ∀ v : JVal, dictGet (dictSet cfgF "agents" v) "providers" =
        dictGet cfgF "providers" :=
      fun v => dictGet_dictSet_ne _ _ _ _ (by decide)
    simp only [applyProviderUpdate] at h
    rcases heqA : dictGet cfgF "agents" with _ | agentsV
    · simp [heqA] at h
    rcases agentsV with _ | b | q | s | es | agentsF
    · simp [heqA] at h
    · simp [heqA] at h
    · simp [heqA] at h
    · simp [heqA] at h
    · simp [heqA] at h
    simp only [heqA] at h
    rcases heqD : dictGet agentsF "defaults" with _ | defV
    · simp [heqD] at h
    rcases defV with _ | b | q | s | es | defF
    · simp [heqD] at h
    · simp [heqD] at h
    · simp [heqD] at h
    · simp [heqD] at h
    · simp [heqD] at h
    simp only [heqD, e1] at h
    rcases hP : dictGet cfgF "providers" with _ | pv
    · simp [configWF, heqA, heqD, hP]
    rcases pv with _ | b | q | s | es | provF
    · simp [e1, hP] at h
    · simp [e1, hP] at h
    · simp [e1, hP] at h
    · simp [e1, hP] at h
    · simp [e1, hP] at h
    · simp [configWF, heqA, heqD, hP]

/-- C1: a `POST /setup/3` with a recognized provider, a non-empty key,
and validation returning valid (or the test/bypass flag set), starting
from a well-formed on-disk state, writes the config file with mode
`0o600`, sets `agents.defaults.provider`/`model` to the chosen
provider's config key and default model, stores the submitted secret
under `providers.<config_key>.api_key`, and creates the setup-complete
marker. -/
theorem setup_step3_success_commit (st : WizardState) (testing : Bool) (ws p : String)
    (apiKeyField : Option String) (outcome : HTTPOutcome) (info : ProviderInfo)
    (hp : lookupProvider p = some info)
    (hk : pyStrip (apiKeyField.getD "") ≠ "")
    (hv : testing = true ∨ (validate_api_key p outcome).1 = true)
    (hwf : configWFOpt st.configFile = true) :
    ∃ cfg,
      (setup_step3 st testing ws (some p) apiKeyField outcome).1.configFile = some cfg
      ∧ (setup_step3 st testing ws (some p) apiKeyField outcome).1.configMode = some 0o600
      ∧ (setup_step3 st testing ws (some p) apiKeyField outcome).1.setupComplete = true
      ∧ jPath cfg ["agents", "defaults", "provider"] = some (.jstr info.config_key)
      ∧ jPath cfg ["agents", "defaults", "model"] = some (.jstr info.default_model)
      ∧ jPath cfg ["providers", info.config_key, "api_key"] =
          some (.jstr (pyStrip (apiKeyField.getD ""))) := by
  obtain ⟨cfg, happ, hprov, hmod, hpe, hwf2, hpres⟩ :=
    applyProviderUpdate_spec
      (st.configFile.getD (defaultConfig ws info.config_key info.default_model))
      info.config_key info.default_model (pyStrip (apiKeyField.getD ""))
      (configWFOpt_base _ _ _ _ hwf)
  have hrun := setup_step3_commit st testing ws p apiKeyField outcome info cfg hp hk hv happ
  refine ⟨cfg, ?_, ?_, ?_, hprov, hmod, ?_⟩
  · rw [hrun]
  · rw [hrun]
  · rw [hrun]
  · have hsplit : (["providers", info.config_key, "api_key"] : List String) =
        ["providers", info.config_key] ++ ["api_key"] := rfl
    rw [hsplit, jPath_append, hpe]
    simp [jPath, providerEntry, dictGet]

/-- C1 witness: a concrete bypassed commit from a fresh state. -/
theorem setup_step3_success_commit_witness :
    (lookupProvider "anthropic" = some anthropicProvider
      ∧ pyStrip " sk-test " ≠ ""
      ∧ configWFOpt (WizardState.mk none none false none).configFile = true)
    ∧ (∃ cfg,
        (setup_step3 ⟨none, none, false, none⟩ true "ws" (some "anthropic")
            (some " sk-test ") .urlError).1.configFile = some cfg
        ∧ (setup_step3 ⟨none, none, false, none⟩ true "ws" (some "anthropic")
            (some " sk-test ") .urlError).1.configMode = some 0o600
        ∧ (setup_step3 ⟨none, none, false, none⟩ true "ws" (some "anthropic")
            (some " sk-test ") .urlError).1.setupComplete = true
        ∧ jPath cfg ["agents", "defaults", "provider"] =
            some (.jstr anthropicProvider.config_key)
        ∧ jPath cfg ["agents", "defaults", "model"] =
            some (.jstr anthropicProvider.default_model)
        ∧ jPath cfg ["providers", anthropicProvider.config_key, "api_key"] =
            some (.jstr (pyStrip " sk-test "))) :=
  ⟨⟨rfl, by decide, rfl⟩,
   setup_step3_success_commit ⟨none, none, false, none⟩ true "ws" "anthropic"
     (some " sk-test ") .urlError anthropicProvider rfl (by decide) (Or.inl rfl) rfl⟩

/-- The invariant of C7: `agents.defaults.provider` holds a string equal
to a key present in the `providers` object whose entry stores an
`api_key` field. -/
def configInvariantB (c : JVal) : Bool :=
  match jPath c ["agents", "defaults", "provider"] with
  | some (.jstr p) => (jPath c ["providers", p, "api_key"]).isSome
  | _ => false

/-- C7: after every successful commit of `POST /setup/3` (any prior
config-file content, any inputs — success itself is the hypothesis),
the persisted config satisfies the invariant that
`agents.defaults.provider` equals a key of `providers` under which an
`api_key` is stored. -/
theorem setup_step3_commit_establishes_invariant (st st' : WizardState) (testing : Bool)
    (ws : String) (provider apiKeyField : Option String) (outcome : HTTPOutcome)
    (n pn m : String)
    (h : setup_step3 st testing ws provider apiKeyField outcome = (st', .completePage n pn m)) :
    ∃ cfg, st'.configFile = some cfg ∧ configInvariantB cfg = true := by
  simp only [setup_step3] at h
  split at h
  · simp at h
  split at h
  · simp at h
  rename_i info hinfo
  split at h
  · simp at h
  split at h
  · simp at h
  rename_i cfg heq
  rw [Prod.mk.injEq] at h
  obtain ⟨hst, hresp⟩ := h
  have hwf := applyProviderUpdate_some_wf _ _ _ _ _ heq
  obtain ⟨cfg', happ', hprov, hmod, hpe, _, _⟩ :=
    applyProviderUpdate_spec _ info.config_key info.default_model
      (pyStrip (apiKeyField.getD "")) hwf
  rw [heq] at happ'
  injection happ' with hcfg
  subst hcfg
  refine ⟨cfg, ?_, ?_⟩
  · rw [← hst]
  · simp only [configInvariantB, hprov]
    have hsplit : (["providers", info.config_key, "api_key"] : List String) =
        ["providers", info.config_key] ++ ["api_key"] := rfl
    rw [hsplit, jPath_append, hpe]
    simp [jPath, providerEntry, dictGet]

/-- C6: two successful commits of `POST /setup/3` with two different
recognized providers leave `providers` entries for both config keys —
the first submission's `api_key` survives the second — while
`agents.defaults.provider` and `model` equal only the second
submission's config key and default model (the two config keys being
distinct). -/
theorem setup_step3_two_commits (st : WizardState) (ws p1 p2 : String)
    (k1 k2 : Option String) (t1 t2 : Bool) (r1 r2 : HTTPOutcome) (i1 i2 : ProviderInfo)
    (h1 : lookupProvider p1 = some i1) (h2 : lookupProvider p2 = some i2)
    (hne : p1 ≠ p2)
    (hk1 : pyStrip (k1.getD "") ≠ "") (hk2 : pyStrip (k2.getD "") ≠ "")
    (hv1 : t1 = true ∨ (validate_api_key p1 r1).1 = true)
    (hv2 : t2 = true ∨ (validate_api_key p2 r2).1 = true)
    (hwf : configWFOpt st.configFile = true) :
    i1.config_key ≠ i2.config_key
    ∧ ∃ cfg,
      (setup_step3 (setup_step3 st t1 ws (some p1) k1 r1).1 t2 ws (some p2) k2 r2).1.configFile
        = some cfg
      ∧ jPath cfg ["providers", i1.config_key, "api_key"] =
          some (.jstr (pyStrip (k1.getD "")))
      ∧ jPath cfg ["providers", i2.config_key, "api_key"] =
          some (.jstr (pyStrip (k2.getD "")))
      ∧ jPath cfg ["agents", "defaults", "provider"] = some (.jstr i2.config_key)
      ∧ jPath cfg ["agents", "defaults", "model"] = some (.jstr i2.default_model) := by
  have hck : i1.config_key ≠ i2.config_key := by
    rw [lookupProvider_config_key p1 i1 h1, lookupProvider_config_key p2 i2 h2]
    exact hne
  refine ⟨hck, ?_⟩
  obtain ⟨cfg1, happ1, hprov1, hmod1, hpe1, hwf1, hpres1⟩ :=
    applyProviderUpdate_spec
      (st.configFile.getD (defaultConfig ws i1.config_key i1.default_model))
      i1.config_key i1.default_model (pyStrip (k1.getD "")) (configWFOpt_base _ _ _ _ hwf)
  have hrun1 := setup_step3_commit st t1 ws p1 k1 r1 i1 cfg1 h1 hk1 hv1 happ1
  have hfst1 : (setup_step3 st t1 ws (some p1) k1 r1).1 =
      { st with configFile := some cfg1, configMode := some 0o600, setupComplete := true } := by
    rw [hrun1]
  obtain ⟨cfg2, happ2, hprov2, hmod2, hpe2, hwf2, hpres2⟩ :=
    applyProviderUpdate_spec cfg1 i2.config_key i2.default_model (pyStrip (k2.getD "")) hwf1
  have hrun2 := setup_step3_commit
    { st with configFile := some cfg1, configMode := some 0o600, setupComplete := true }
    t2 ws p2 k2 r2 i2 cfg2 h2 hk2 hv2 happ2
  rw [hfst1, hrun2]
  refine ⟨cfg2, rfl, ?_, ?_, hprov2, hmod2⟩
  · have hkeep := hpres2 i1.config_key _ hck hpe1
    have hsplit : (["providers", i1.config_key, "api_key"] : List String) =
        ["providers", i1.config_key] ++ ["api_key"] := rfl
    rw [hsplit, jPath_append, hkeep]
    simp [jPath, providerEntry, dictGet]
  · have hsplit : (["providers", i2.config_key, "api_key"] : List String) =
        ["providers", i2.config_key] ++ ["api_key"] := rfl
    rw [hsplit, jPath_append, hpe2]
    simp [jPath, providerEntry, dictGet]

/-- Initial state of the C7 witness run: a minimal well-formed config
file on disk. -/
def invariantWitnessStart : WizardState :=
  ⟨some (.jobj [("agents", .jobj [("defaults", .jobj [])])]), none, false, none⟩

/-- The config the C7 witness run persists. -/
def invariantWitnessCfg : JVal :=
  .jobj
    [("agents", .jobj [("defaults", .jobj
        [("provider", .jstr "groq"), ("model", .jstr "llama-3.3-70b")])]),
     ("providers", .jobj
        [("groq", .jobj [("api_key", .jstr "k1"), ("api_base", .jstr "")])])]

/-- C7 witness: a concrete successful commit and the invariant it
establishes. -/
theorem setup_step3_commit_establishes_invariant_witness :
    (setup_step3 invariantWitnessStart true "ws" (some "groq") (some " k1 ") .urlError =
      (⟨some invariantWitnessCfg, some 0o600, true, none⟩,
       .completePage "piclaw" "Groq" "llama-3.3-70b"))
    ∧ ∃ cfg,
        (⟨some invariantWitnessCfg, some 0o600, true, none⟩ : WizardState).configFile = some cfg
        ∧ configInvariantB cfg = true :=
  ⟨rfl,
   setup_step3_commit_establishes_invariant invariantWitnessStart
     ⟨some invariantWitnessCfg, some 0o600, true, none⟩ true "ws" (some "groq")
     (some " k1 ") .urlError "piclaw" "Groq" "llama-3.3-70b" rfl⟩

/-- C6 witness: a concrete pair of bypassed commits with `anthropic`
then `openai` from a fresh state. -/
theorem setup_step3_two_commits_witness :
    anthropicProvider.config_key ≠ openaiProvider.config_key
    ∧ ∃ cfg,
      (setup_step3 (setup_step3 ⟨none, none, false, none⟩ true "ws" (some "anthropic")
          (some "ka") .urlError).1 true "ws" (some "openai") (some "kb") .urlError).1.configFile
        = some cfg
      ∧ jPath cfg ["providers", anthropicProvider.config_key, "api_key"] =
          some (.jstr (pyStrip "ka"))
      ∧ jPath cfg ["providers", openaiProvider.config_key, "api_key"] =
          some (.jstr (pyStrip "kb"))
      ∧ jPath cfg ["agents", "defaults", "provider"] =
          some (.jstr openaiProvider.config_key)
      ∧ jPath cfg ["agents", "defaults", "model"] =
          some (.jstr openaiProvider.default_model) :=
  setup_step3_two_commits ⟨none, none, false, none⟩ "ws" "anthropic" "openai"
    (some "ka") (some "kb") true true .urlError .urlError anthropicProvider openaiProvider
    rfl rfl (by decide) (by decide) (by decide) (Or.inl rfl) (Or.inl rfl) rfl

/-- The scan loop, when it finishes without raising, returns a
subsequence of the per-line parses whose ssids are non-empty, fresh
with respect to `seen`, pairwise distinct, each kept network being the
first parsed network bearing its ssid; and conversely no parsed
network with a non-empty ssid fresh with respect to `seen` is lost:
its ssid appears among the returned networks' ssids. -/
theorem scanCollect_ok_spec (parse : String → Option JVal) (lines : List String)
    (seen : List String) (nets : List JVal)
    (h : scanCollect parse lines seen = .ok nets) :
    nets.Sublist ((lines.filter (fun l => pyStrip l ≠ "")).filterMap parse)
    ∧ (∀ n ∈ nets, ssidKey n ≠ "" ∧ ssidKey n ∉ seen)
    ∧ (nets.map ssidKey).Nodup
    ∧ (∀ n ∈ nets, ((lines.filter (fun l => pyStrip l ≠ "")).filterMap parse).find?
        (fun mn => ssidKey mn == ssidKey n) = some n)
    ∧ (∀ n ∈ (lines.filter (fun l => pyStrip l ≠ "")).filterMap parse,
        ssidKey n ≠ "" → ssidKey n ∉ seen → ssidKey n ∈ nets.map ssidKey) := by
  induction lines generalizing seen nets with
  | nil =>
    simp only [scanCollect] at h
    injection h with hnets
    subst hnets
    simp
  | cons line rest ih =>
    by_cases hb : pyStrip line = ""
    · simp only [scanCollect, if_pos hb] at h
      have hrec := ih seen nets h
      simpa [List.filter_cons, hb] using hrec
    · simp only [scanCollect, if_neg hb] at h
      cases hp : parse line with
      | none =>
        simp only [hp] at h
        have hrec := ih seen nets h
        simpa [List.filter_cons, hb, List.filterMap_cons, hp] using hrec
      | some net =>
        simp only [hp] at h
        cases hs : getSsid net with
        | none =>
          simp only [hs] at h
          exact Except.noConfusion h
        | some ssid =>
          simp only [hs] at h
          have hkey : ssidKey net = ssid := by simp [ssidKey, hs]
          by_cases hkeep : ssid ≠ "" ∧ ssid ∉ seen
          · rw [if_pos hkeep] at h
            cases hrc : scanCollect parse rest (ssid :: seen) with
            | error e =>
              simp only [hrc] at h
              exact Except.noConfusion h
            | ok nets' =>
              simp only [hrc] at h
              injection h with hnets
              subst hnets
              obtain ⟨ihsub, ihfresh, ihnodup, ihfind, ihcomp⟩ := ih (ssid :: seen) nets' hrc
              have hfilter : (line :: rest).filter (fun l => pyStrip l ≠ "") =
                  line :: rest.filter (fun l => pyStrip l ≠ "") := by
                simp [List.filter_cons, hb]
              have hfm : ((line :: rest).filter (fun l => pyStrip l ≠ "")).filterMap parse =
                  net :: (rest.filter (fun l => pyStrip l ≠ "")).filterMap parse := by
                rw [hfilter]
                simp [List.filterMap_cons, hp]
              rw [hfm]
              refine ⟨ihsub.cons₂ net, ?_, ?_, ?_, ?_⟩
              · intro n hn
                rcases List.mem_cons.mp hn with rfl | hn
                · exact ⟨fun he => hkeep.1 (hkey ▸ he), fun hm => hkeep.2 (hkey ▸ hm)⟩
                · obtain ⟨hne, hnm⟩ := ihfresh n hn
                  exact ⟨hne, fun hmem => hnm (List.mem_cons_of_mem _ hmem)⟩
              · simp only [List.map_cons, List.nodup_cons]
                constructor
                · intro hmem
                  obtain ⟨n, hn, hkn⟩ := List.mem_map.mp hmem
                  obtain ⟨_, hnm⟩ := ihfresh n hn
                  rw [hkey] at hkn
                  exact hnm (hkn ▸ List.mem_cons_self ssid seen)
                · exact ihnodup
              · intro n hn
                rcases List.mem_cons.mp hn with rfl | hn
                · rw [List.find?_cons_of_pos _ (by simp)]
                · obtain ⟨_, hnm⟩ := ihfresh n hn
                  have hne2 : ssidKey net ≠ ssidKey n := by
                    rw [hkey]
                    intro he
                    exact hnm (he ▸ List.mem_cons_self ssid seen)
                  rw [List.find?_cons_of_neg _ (by simp [hne2])]
                  exact ihfind n hn
              · intro n hn hne hnm
                rcases List.mem_cons.mp hn with rfl | hn
                · simp only [List.map_cons]
                  exact List.mem_cons_self _ _
                · by_cases hsn : ssidKey n = ssid
                  · simp only [List.map_cons]
                    rw [hsn, hkey]
                    exact List.mem_cons_self _ _
                  · have hnm2 : ssidKey n ∉ ssid :: seen := by
                      intro hm
                      rcases List.mem_cons.mp hm with hm | hm
                      · exact hsn hm
                      · exact hnm hm
                    have hin := ihcomp n hn hne hnm2
                    simp only [List.map_cons]
                    exact List.mem_cons_of_mem _ hin
          · rw [if_neg hkeep] at h
            obtain ⟨ihsub, ihfresh, ihnodup, ihfind, ihcomp⟩ := ih seen nets h
            have hfilter : (line :: rest).filter (fun l => pyStrip l ≠ "") =
                line :: rest.filter (fun l => pyStrip l ≠ "") := by
              simp [List.filter_cons, hb]
            have hfm : ((line :: rest).filter (fun l => pyStrip l ≠ "")).filterMap parse =
                net :: (rest.filter (fun l => pyStrip l ≠ "")).filterMap parse := by
              rw [hfilter]
              simp [List.filterMap_cons, hp]
            rw [hfm]
            have hbad : ssid = "" ∨ ssid ∈ seen := by
              by_contra hc
              push_neg at hc
              exact hkeep ⟨hc.1, hc.2⟩
            refine ⟨ihsub.cons net, ihfresh, ihnodup, ?_, ?_⟩
            · intro n hn
              obtain ⟨hne, hnm⟩ := ihfresh n hn
              have hne2 : ssidKey net ≠ ssidKey n := by
                rw [hkey]
                rcases hbad with hbad | hbad
                · rw [hbad]
                  exact fun he => hne he.symm
                · intro he
                  exact hnm (he ▸ hbad)
              rw [List.find?_cons_of_neg _ (by simp [hne2])]
              exact ihfind n hn
            · intro n hn hne hnm
              rcases List.mem_cons.mp hn with rfl | hn
              · exfalso
                rcases hbad with hbad | hbad
                · exact hne (hkey.trans hbad)
                · exact hnm (hkey.symm ▸ hbad)
              · exact ihcomp n hn hne hnm

/-- C8: `POST /api/wifi/scan` parses one JSON object per non-blank
output line (lines that fail to parse are skipped — the networks are
drawn from the per-line parses) and returns exactly the networks
deduplicated by SSID preserving first-seen order: the result is a
subsequence of the parsed list with pairwise-distinct ssids, every
parsed network with a non-empty ssid contributes its ssid to the
result, and a network is returned if and only if it is the first
parsed network bearing its (non-empty) ssid.  When the helper script
is absent the handler returns an empty network list with the
explanatory error string. -/
theorem api_wifi_scan_spec (parse : String → Option JVal) (oc : ScanOutcome)
    (stdout : String) (nets : List JVal)
    (h : api_wifi_scan true parse (.completed stdout) = ⟨nets, none⟩) :
    (api_wifi_scan false parse oc = ⟨[], some .notAvailable⟩
      ∧ ScanError.literalMessage .notAvailable =
          some "WiFi setup not available on this device.")
    ∧ nets.Sublist (scanParsedNets parse stdout)
    ∧ (nets.map ssidKey).Nodup
    ∧ (∀ n ∈ nets, (scanParsedNets parse stdout).find?
        (fun mn => ssidKey mn == ssidKey n) = some n)
    ∧ (∀ n ∈ scanParsedNets parse stdout, ssidKey n ≠ "" →
        ssidKey n ∈ nets.map ssidKey)
    ∧ (∀ n, n ∈ nets ↔
        (n ∈ scanParsedNets parse stdout ∧ ssidKey n ≠ ""
          ∧ (scanParsedNets parse stdout).find?
              (fun mn => ssidKey mn == ssidKey n) = some n)) := by
  refine ⟨⟨rfl, rfl⟩, ?_⟩
  simp only [api_wifi_scan, Bool.not_true, Bool.false_eq_true, if_false] at h
  cases hsc : scanCollect parse (splitOnChar '\n' (pyStrip stdout)) [] with
  | error e =>
    simp only [hsc] at h
    simp at h
  | ok nets' =>
    simp only [hsc] at h
    have hnets : nets' = nets := by
      have := congrArg ScanResp.networks h
      simpa using this
    subst hnets
    obtain ⟨hsub, hfresh, hnodup, hfind, hcomp⟩ :=
      scanCollect_ok_spec parse _ [] nets' hsc
    refine ⟨hsub, hnodup, hfind, ?_, ?_⟩
    · intro n hn hne
      exact hcomp n hn hne (List.not_mem_nil _)
    · intro n
      constructor
      · intro hn
        exact ⟨hsub.subset hn, (hfresh n hn).1, hfind n hn⟩
      · rintro ⟨hn, hne, hf⟩
        have hm := hcomp n hn hne (List.not_mem_nil _)
        obtain ⟨n', hn', hkeq⟩ := List.mem_map.mp hm
        have hf' := hfind n' hn'
        rw [hkeq] at hf'
        have hf2 : (scanParsedNets parse stdout).find?
            (fun mn => ssidKey mn == ssidKey n) = some n' := hf'
        rw [hf2] at hf
        injection hf with he
        exact he ▸ hn'

/-- A concrete stand-in for `json.loads` used by the C8 witness. -/
def parseExample : String → Option JVal := fun l =>
  if l = "a" then some (.jobj [("ssid", .jstr "home")])
  else if l = "b" then some (.jobj [("ssid", .jstr "home"), ("ch", .jnum 6)])
  else if l = "c" then some (.jobj [("ssid", .jstr "cafe")])
  else none

/-- C8 witness: a concrete scan with a malformed line and a duplicate
ssid. -/
theorem api_wifi_scan_spec_witness :
    (api_wifi_scan true parseExample (.completed "a\nbad\nb\nc\n") =
        ⟨[.jobj [("ssid", .jstr "home")], .jobj [("ssid", .jstr "cafe")]], none⟩)
    ∧ ((api_wifi_scan false parseExample .timedOut = ⟨[], some .notAvailable⟩
        ∧ ScanError.literalMessage .notAvailable =
            some "WiFi setup not available on this device.")
      ∧ ([.jobj [("ssid", .jstr "home")],
          .jobj [("ssid", .jstr "cafe")]] : List JVal).Sublist
          (scanParsedNets parseExample "a\nbad\nb\nc\n")
      ∧ (([.jobj [("ssid", .jstr "home")],
          .jobj [("ssid", .jstr "cafe")]] : List JVal).map ssidKey).Nodup
      ∧ (∀ n ∈ ([.jobj [("ssid", .jstr "home")],
          .jobj [("ssid", .jstr "cafe")]] : List JVal),
          (scanParsedNets parseExample "a\nbad\nb\nc\n").find?
            (fun mn => ssidKey mn == ssidKey n) = some n)
      ∧ (∀ n ∈ scanParsedNets parseExample "a\nbad\nb\nc\n", ssidKey n ≠ "" →
          ssidKey n ∈ ([.jobj [("ssid", .jstr "home")],
            .jobj [("ssid", .jstr "cafe")]] : List JVal).map ssidKey)
      ∧ (∀ n, n ∈ ([.jobj [("ssid", .jstr "home")],
            .jobj [("ssid", .jstr "cafe")]] : List JVal) ↔
          (n ∈ scanParsedNets parseExample "a\nbad\nb\nc\n" ∧ ssidKey n ≠ ""
            ∧ (scanParsedNets parseExample "a\nbad\nb\nc\n").find?
                (fun mn => ssidKey mn == ssidKey n) = some n))) :=
  ⟨rfl, api_wifi_scan_spec parseExample .timedOut "a\nbad\nb\nc\n" _ rfl⟩

/-- C9: `POST /api/wifi/connect` with an empty or whitespace-only
`ssid` answers `success: false` with the SSID-naming error and does not
invoke the helper script; with a non-empty `ssid` but empty `password`
it answers `success: false` with the password-naming error, again
without invoking the helper script. -/
theorem api_wifi_connect_validation (scriptExists : Bool)
    (ssidField passwordField countryField : Option String)
    (outcome : ConnectOutcome) (ipQuery : Option String) :
    (pyStrip (ssidField.getD "") = "" →
      api_wifi_connect scriptExists ssidField passwordField countryField outcome ipQuery =
        (⟨false, some "SSID is required.", none, none⟩, false))
    ∧ (pyStrip (ssidField.getD "") ≠ "" → passwordField.getD "" = "" →
      api_wifi_connect scriptExists ssidField passwordField countryField outcome ipQuery =
        (⟨false, some "Password is required.", none, none⟩, false)) := by
  constructor
  · intro hs
    simp [api_wifi_connect, hs]
  · intro hs hpw
    simp [api_wifi_connect, hs, hpw]

/-- C9 witness: concrete missing-SSID and missing-password requests. -/
theorem api_wifi_connect_validation_witness :
    (pyStrip "  " = ""
      ∧ api_wifi_connect true (some "  ") (some "pw") none .timedOut none =
          (⟨false, some "SSID is required.", none, none⟩, false))
    ∧ (pyStrip "Net" ≠ "" ∧ (some "" : Option String).getD "" = ""
      ∧ api_wifi_connect true (some "Net") (some "") none .timedOut none =
          (⟨false, some "Password is required.", none, none⟩, false)) :=
  ⟨⟨by decide,
    (api_wifi_connect_validation true (some "  ") (some "pw") none .timedOut none).1
      (by decide)⟩,
   ⟨by decide, rfl,
    (api_wifi_connect_validation true (some "Net") (some "") none .timedOut none).2
      (by decide) rfl⟩⟩

/-- C10 counterexample: submitting `/setup/2` with a `device_name`
field that is present but empty stores the empty string — not
`"piclaw"` — and the subsequent `/setup/3` commit renders the empty
name.  (`request.form.get("device_name", "piclaw")` falls back to the
default only when the field is absent.) -/
theorem setup_step2_empty_name_counterexample :
    (setup_step2_post ⟨none, none, false, none⟩ (some "")).deviceName = some ""
    ∧ (setup_step2_post ⟨none, none, false, none⟩ (some "")).deviceName ≠ some "piclaw"
    ∧ (setup_step3 (setup_step2_post ⟨none, none, false, none⟩ (some "")) true "ws"
        (some "groq") (some "k") .urlError).2 =
      .completePage "" "Groq" "llama-3.3-70b" := by
  refine ⟨rfl, ?_, rfl⟩
  decide

/-- C10 (amended): the device name defaults to `"piclaw"` exactly when
the `device_name` field is absent from the `POST /setup/2` form; a
submitted value — the empty string included — is stored verbatim, and a
successful `/setup/3` commit renders the stored value. -/
theorem setup_step2_device_name_default (st : WizardState) (s ws : String) :
    (setup_step2_post st none).deviceName = some "piclaw"
    ∧ (setup_step2_post st (some s)).deviceName = some s
    ∧ (setup_step3 { setup_step2_post st (some s) with configFile := none } true ws
        (some "groq") (some "sk-test-123") .urlError).2 =
      .completePage s groqProvider.name groqProvider.default_model := by
  exact ⟨rfl, rfl, rfl⟩
